import Mathlib

/-!
Shallow embedding of the stockfighter API client (package `api`, file
`src/api/order.go`) and proofs about its order-endpoint operations.

The file `order.go` defines five endpoint methods on the client object
`Instance`: `NewOrder`, `CancelOrder`, `OrderStatus`, `AccountOrderStatus`
and `StockOrderStatus`.  Each builds an HTTP request from the client
configuration (taken under a read lock), issues it through the underlying
HTTP client, decodes the JSON response body, records errors through the
shared accumulator `setErr`, and returns the decoded value.

The definitions of `Instance`, `setErr`, `apiError`, `errorResult` and
`baseURL` live in other files of the package that are not part of the
source under inspection; those are modelled from the specification and
are marked as such in their doc comments.  Everything else is translated
directly from `order.go`, with Go's `encoding/json` semantics (struct-tag
key matching preferring an exact match but accepting a case-insensitive
one, unknown keys ignored, `null` a no-op for scalar fields, type
mismatches reported as the first decode error while decoding continues)
made explicit.
-/

namespace Stockfighter

/-- A JSON value, the shape of request and response bodies.  Numbers are
modelled as integers: every numeric field of the structs in `order.go`
has Go type `int`. -/
inductive Json where
  | null : Json
  | bool (b : Bool) : Json
  | num (n : Int) : Json
  | str (s : String) : Json
  | arr (elems : List Json) : Json
  | obj (fields : List (String × Json)) : Json

/-- A Go `error` value as observed by this client: a JSON decode error, a
transport-level error returned by the HTTP client's `Do`, or the error the
package builds from a venue error message and an HTTP status line. -/
inductive GoError where
  | decodeErr (msg : String) : GoError
  | httpErr (msg : String) : GoError
  | apiErr (msg : String) (status : String) : GoError
deriving DecidableEq, Repr

/-- An HTTP response as the operations consume it: numeric status code,
status line (Go's `res.Status`, e.g. "404 Not Found"), and body.  A body
of `none` models bytes that are not valid JSON, so that every decode of it
fails with a syntax error. -/
structure Response where
  statusCode : Nat
  status : String
  body : Option Json

/-- The outcome of the underlying HTTP client's `Do` call: an optional
response and an optional transport error.  `(none, some e)` is the
ordinary failure shape of Go's `http.Client.Do`, where the returned
response pointer is nil. -/
abbrev DoResult := Option Response × Option GoError

/-- Modelled from the spec: the client object `Instance` is declared
outside `order.go`.  Per the spec it is a "single shared mutable
configuration block" holding the account, venue and symbol used by every
call, the auth header (`i.h` in the source), and the shared sticky error
accumulator ("last error" field). -/
structure Instance where
  account : String
  venue : String
  symbol : String
  h : List (String × String)
  err : Option GoError
deriving DecidableEq, Repr

/-- Modelled from the spec: `setErr` is declared outside `order.go`.  The
spec says every call "records at most the first error encountered into a
shared accumulator; subsequent calls do not clear it automatically", and
that the field is sticky.  So `setErr` stores its argument only when the
accumulator is empty and the argument is an actual error; a `none`
argument (a nil Go error) never clears the field. -/
def Instance.setErr (i : Instance) (e : Option GoError) : Instance :=
  match i.err, e with
  | some _, _ => i
  | none, some g => { i with err := some g }
  | none, none => i

/-- Modelled from the spec: `apiError` is declared outside `order.go`.
The spec says non-200 responses populate the error field with the venue's
message; `order.go` calls it as `apiError(v.Error, res.Status)`, so it
combines the decoded error-body message with the response status line. -/
def apiError (msg : String) (status : String) : GoError :=
  GoError.apiErr msg status

/-- Modelled from the spec: the package-level constant `baseURL` is
declared outside `order.go`; the spec describes it only as the "fixed
base URL" every endpoint path is appended to. -/
def baseURL : String := "https://api.stockfighter.io/ob/api/"

/-- Go type `orderType`, a string type. -/
abbrev orderType := String

/-- Go type `orderDirection`, a string type. -/
abbrev orderDirection := String

/-- Constant `Limit` from `order.go`. -/
def Limit : orderType := "limit"

/-- Constant `Market` from `order.go`. -/
def Market : orderType := "market"

/-- Constant `FillOrKill` from `order.go`. -/
def FillOrKill : orderType := "fill-or-kill"

/-- Constant `ImmediateOrCancel` from `order.go`. -/
def ImmediateOrCancel : orderType := "immediate-or-cancel"

/-- Constant `Buy` from `order.go`. -/
def Buy : orderDirection := "buy"

/-- Constant `Sell` from `order.go`. -/
def Sell : orderDirection := "sell"

/-- The `orderRequest` struct from `order.go`: the body of a new-order
POST. -/
structure orderRequest where
  Account : String
  Venue : String
  Symbol : String
  Price : Int
  Quantity : Int
  Direction : orderDirection
  OrderType : orderType
deriving DecidableEq, Repr

/-- `json.Marshal` of an `orderRequest`, following the struct's JSON tags
`account`, `venue`, `symbol`, `price`, `qty`, `direction`, `orderType`.
Marshalling a struct of strings and ints never fails in Go, so this is
total. -/
def encodeOrderRequest (r : orderRequest) : Json :=
  Json.obj
    [ ("account", Json.str r.Account)
    , ("venue", Json.str r.Venue)
    , ("symbol", Json.str r.Symbol)
    , ("price", Json.num r.Price)
    , ("qty", Json.num r.Quantity)
    , ("direction", Json.str r.Direction)
    , ("orderType", Json.str r.OrderType)
    ]

/-- The `Fill` struct from `order.go`.  The `time.Time` field `TS` is
modelled as the raw RFC3339 string it is decoded from. -/
structure Fill where
  Price : Int
  Quantity : Int
  TS : String
deriving DecidableEq, Repr

/-- The `Order` struct from `order.go`, with its JSON tags reproduced in
`fieldIndex` below.  Note the misspelled tag `orignialQty` on
`OriginalQuantity` in the source. -/
structure Order where
  Account : String
  Venue : String
  Symbol : String
  Price : Int
  OriginalQuantity : Int
  Quantity : Int
  Direction : orderDirection
  OrderType : orderType
  ID : Int
  TS : String
  Fills : List Fill
  TotalFilled : Int
  Open : Bool
deriving DecidableEq, Repr

/-- The zero value of `Order`, what Go's `var v Order` starts from. -/
def zeroOrder : Order :=
  { Account := "", Venue := "", Symbol := "", Price := 0
  , OriginalQuantity := 0, Quantity := 0, Direction := "", OrderType := ""
  , ID := 0, TS := "", Fills := [], TotalFilled := 0, Open := false }

/-- The zero value of `Fill`. -/
def zeroFill : Fill := { Price := 0, Quantity := 0, TS := "" }

/-- Lower-case an ASCII letter's code point, identity elsewhere. -/
def foldCode (c : Char) : Nat :=
  if 65 ≤ c.toNat ∧ c.toNat ≤ 90 then c.toNat + 32 else c.toNat

/-- Go's case-insensitive key comparison used by `encoding/json` when no
exact tag match exists (ASCII folding suffices for the tags in play):
two keys match when they agree character by character up to ASCII
case. -/
def eqFold (a b : String) : Bool :=
  a.data.map foldCode == b.data.map foldCode

/-- Keep the first error: Go's decoder reports the earliest
`UnmarshalTypeError` while completing the rest of the object. -/
def firstErr (e e2 : Option GoError) : Option GoError :=
  match e with
  | some _ => e
  | none => e2

/-- The decode error for a body that is not valid JSON. -/
def invalidCharErr : GoError := GoError.decodeErr "invalid character"

/-- The decode error for a JSON value of the wrong type for a field. -/
def typeMismatch : GoError := GoError.decodeErr "cannot unmarshal"

/-- Decode a JSON value into a Go `string` field: a JSON string sets it,
`null` is a no-op, anything else is a type mismatch. -/
def decStrField (cur : String) (j : Json) : String × Option GoError :=
  match j with
  | Json.str s => (s, none)
  | Json.null => (cur, none)
  | _ => (cur, some typeMismatch)

/-- Decode a JSON value into a Go `int` field. -/
def decIntField (cur : Int) (j : Json) : Int × Option GoError :=
  match j with
  | Json.num n => (n, none)
  | Json.null => (cur, none)
  | _ => (cur, some typeMismatch)

/-- Decode a JSON value into a Go `bool` field. -/
def decBoolField (cur : Bool) (j : Json) : Bool × Option GoError :=
  match j with
  | Json.bool b => (b, none)
  | Json.null => (cur, none)
  | _ => (cur, some typeMismatch)

/-- The JSON tags of `Fill`, in field order. -/
def fillTags : List String := ["price", "qty", "ts"]

/-- Route one incoming object key to a `Fill` field and assign it. -/
def setFillField (acc : Fill × Option GoError) (kv : String × Json) :
    Fill × Option GoError :=
  match fillTags.findIdx? (fun t => eqFold kv.1 t) with
  | some 0 =>
      let r := decIntField acc.1.Price kv.2
      ({ acc.1 with Price := r.1 }, firstErr acc.2 r.2)
  | some 1 =>
      let r := decIntField acc.1.Quantity kv.2
      ({ acc.1 with Quantity := r.1 }, firstErr acc.2 r.2)
  | some 2 =>
      let r := decStrField acc.1.TS kv.2
      ({ acc.1 with TS := r.1 }, firstErr acc.2 r.2)
  | _ => acc

/-- Decode one JSON value into a `Fill` (an element of the `fills`
array). -/
def decodeFillJson (j : Json) : Fill × Option GoError :=
  match j with
  | Json.obj fs => fs.foldl setFillField (zeroFill, none)
  | Json.null => (zeroFill, none)
  | _ => (zeroFill, some typeMismatch)

/-- Decode a JSON array into a `[]Fill`, keeping the first error. -/
def decodeFills (elems : List Json) : List Fill × Option GoError :=
  elems.foldl
    (fun acc j =>
      let r := decodeFillJson j
      (acc.1 ++ [r.1], firstErr acc.2 r.2))
    ([], none)

/-- Route an incoming key to the index of the `Order` field it populates,
following the struct's JSON tags in field order exactly as written in
`order.go` (index 4 is the misspelled `orignialQty`).  Go prefers an
exact tag match and falls back to a case-insensitive one; as no two tags
of `Order` are case-insensitively equal, the first case-insensitive
match coincides with Go's routing. -/
def fieldIndex (k : String) : Option Nat :=
  cond (eqFold k "account") (some 0)
  (cond (eqFold k "venue") (some 1)
  (cond (eqFold k "symbol") (some 2)
  (cond (eqFold k "price") (some 3)
  (cond (eqFold k "orignialQty") (some 4)
  (cond (eqFold k "qty") (some 5)
  (cond (eqFold k "direction") (some 6)
  (cond (eqFold k "orderType") (some 7)
  (cond (eqFold k "id") (some 8)
  (cond (eqFold k "ts") (some 9)
  (cond (eqFold k "fills") (some 10)
  (cond (eqFold k "totalFilled") (some 11)
  (cond (eqFold k "open") (some 12)
  none))))))))))))

/-- Assign one routed JSON value to the `Order` field at `idx`. -/
def assignOrderField (o : Order) (e : Option GoError) (idx : Nat) (j : Json) :
    Order × Option GoError :=
  match idx with
  | 0 => ({ o with Account := (decStrField o.Account j).1 },
          firstErr e (decStrField o.Account j).2)
  | 1 => ({ o with Venue := (decStrField o.Venue j).1 },
          firstErr e (decStrField o.Venue j).2)
  | 2 => ({ o with Symbol := (decStrField o.Symbol j).1 },
          firstErr e (decStrField o.Symbol j).2)
  | 3 => ({ o with Price := (decIntField o.Price j).1 },
          firstErr e (decIntField o.Price j).2)
  | 4 => ({ o with OriginalQuantity := (decIntField o.OriginalQuantity j).1 },
          firstErr e (decIntField o.OriginalQuantity j).2)
  | 5 => ({ o with Quantity := (decIntField o.Quantity j).1 },
          firstErr e (decIntField o.Quantity j).2)
  | 6 => ({ o with Direction := (decStrField o.Direction j).1 },
          firstErr e (decStrField o.Direction j).2)
  | 7 => ({ o with OrderType := (decStrField o.OrderType j).1 },
          firstErr e (decStrField o.OrderType j).2)
  | 8 => ({ o with ID := (decIntField o.ID j).1 },
          firstErr e (decIntField o.ID j).2)
  | 9 => ({ o with TS := (decStrField o.TS j).1 },
          firstErr e (decStrField o.TS j).2)
  | 10 =>
      match j with
      | Json.arr elems =>
          ({ o with Fills := (decodeFills elems).1 },
           firstErr e (decodeFills elems).2)
      | Json.null => ({ o with Fills := [] }, e)
      | _ => (o, firstErr e (some typeMismatch))
  | 11 => ({ o with TotalFilled := (decIntField o.TotalFilled j).1 },
           firstErr e (decIntField o.TotalFilled j).2)
  | 12 => ({ o with Open := (decBoolField o.Open j).1 },
           firstErr e (decBoolField o.Open j).2)
  | _ => (o, e)

/-- Process one incoming object member while decoding an `Order`:
unknown keys are ignored, known keys are assigned (later duplicates
overwrite earlier ones, as in Go). -/
def setOrderField (acc : Order × Option GoError) (kv : String × Json) :
    Order × Option GoError :=
  match fieldIndex kv.1 with
  | none => acc
  | some idx => assignOrderField acc.1 acc.2 idx kv.2

/-- `dec.Decode(&v)` for `var v Order`: `none` models an unreadable or
malformed body (syntax error), a JSON object is decoded member by member,
`null` is a no-op, and any other JSON value is a type mismatch.  As in
Go, a partially decoded value is produced alongside the error. -/
def decodeOrder (body : Option Json) : Order × Option GoError :=
  match body with
  | none => (zeroOrder, some invalidCharErr)
  | some (Json.obj fs) => fs.foldl setOrderField (zeroOrder, none)
  | some Json.null => (zeroOrder, none)
  | some _ => (zeroOrder, some typeMismatch)

/-- Modelled from the spec: the `errorResult` struct is declared outside
`order.go`.  Per the spec, the venue's error message decoded from a
non-200 body; `order.go` reads its `Error` field for `apiError`.  Tags
`ok` and `error`. -/
structure errorResult where
  Ok : Bool
  Error : String
deriving DecidableEq, Repr

/-- The zero value of `errorResult`. -/
def zeroErrorResult : errorResult := { Ok := false, Error := "" }

/-- Process one incoming object member while decoding an
`errorResult`. -/
def setErrorResultField (acc : errorResult × Option GoError)
    (kv : String × Json) : errorResult × Option GoError :=
  match (["ok", "error"].findIdx? (fun t => eqFold kv.1 t)) with
  | some 0 =>
      let r := decBoolField acc.1.Ok kv.2
      ({ acc.1 with Ok := r.1 }, firstErr acc.2 r.2)
  | some 1 =>
      let r := decStrField acc.1.Error kv.2
      ({ acc.1 with Error := r.1 }, firstErr acc.2 r.2)
  | _ => acc

/-- `dec.Decode(&v)` for `var v errorResult`. -/
def decodeErrorResult (body : Option Json) : errorResult × Option GoError :=
  match body with
  | none => (zeroErrorResult, some invalidCharErr)
  | some (Json.obj fs) => fs.foldl setErrorResultField (zeroErrorResult, none)
  | some Json.null => (zeroErrorResult, none)
  | some _ => (zeroErrorResult, some typeMismatch)

/-- The `allOrdersStatusResult` struct from `order.go`: tags `ok`,
`venue`, `orders`. -/
structure allOrdersStatusResult where
  Ok : Bool
  Venue : String
  Orders : List Order
deriving DecidableEq, Repr

/-- The zero value of `allOrdersStatusResult`.  Its `Orders` slice is nil
in Go, modelled as the empty list. -/
def zeroAllOrders : allOrdersStatusResult :=
  { Ok := false, Venue := "", Orders := [] }

/-- Decode a JSON array into a `[]Order`, keeping the first error. -/
def decodeOrders (elems : List Json) : List Order × Option GoError :=
  elems.foldl
    (fun acc j =>
      match j with
      | Json.obj fs =>
          let r := fs.foldl setOrderField (zeroOrder, none)
          (acc.1 ++ [r.1], firstErr acc.2 r.2)
      | Json.null => (acc.1 ++ [zeroOrder], acc.2)
      | _ => (acc.1 ++ [zeroOrder], firstErr acc.2 (some typeMismatch)))
    ([], none)

/-- Process one incoming object member while decoding an
`allOrdersStatusResult`. -/
def setAllOrdersField (acc : allOrdersStatusResult × Option GoError)
    (kv : String × Json) : allOrdersStatusResult × Option GoError :=
  match (["ok", "venue", "orders"].findIdx? (fun t => eqFold kv.1 t)) with
  | some 0 =>
      let r := decBoolField acc.1.Ok kv.2
      ({ acc.1 with Ok := r.1 }, firstErr acc.2 r.2)
  | some 1 =>
      let r := decStrField acc.1.Venue kv.2
      ({ acc.1 with Venue := r.1 }, firstErr acc.2 r.2)
  | some 2 =>
      match kv.2 with
      | Json.arr elems =>
          ({ acc.1 with Orders := (decodeOrders elems).1 },
           firstErr acc.2 (decodeOrders elems).2)
      | Json.null => ({ acc.1 with Orders := [] }, acc.2)
      | _ => (acc.1, firstErr acc.2 (some typeMismatch))
  | _ => acc

/-- `dec.Decode(&v)` for `var v allOrdersStatusResult`. -/
def decodeAllOrders (body : Option Json) :
    allOrdersStatusResult × Option GoError :=
  match body with
  | none => (zeroAllOrders, some invalidCharErr)
  | some (Json.obj fs) => fs.foldl setAllOrdersField (zeroAllOrders, none)
  | some Json.null => (zeroAllOrders, none)
  | some _ => (zeroAllOrders, some typeMismatch)

/-- `strconv.Itoa`: decimal rendering of an integer. -/
def itoa (n : Int) : String := toString n

/-- An observable step of an endpoint operation, used to state the lock
discipline and the request each call issues: taking or releasing the read
lock, reading a named configuration field of the `Instance`, or issuing
the HTTP request through `i.c.Do` with a method, URL and optional body. -/
inductive Event where
  | rlock : Event
  | readCfg (name : String) : Event
  | runlock : Event
  | httpDo (method : String) (url : String) (body : Option Json) : Event

/-- The outcome of one endpoint operation: the client state afterwards,
the returned value (`none` when the operation panics and never returns),
and the trace of observable steps it performed. -/
structure OpResult (α : Type) where
  inst : Instance
  ret : Option α
  trace : List Event

/-- `Instance.NewOrder` from `order.go`.  Under the read lock it marshals
an `orderRequest` from the configuration (marshalling these field types
never fails, so the first `setErr` receives nil) and builds the URL; it
then releases the lock, attaches the auth header, performs `i.c.Do`,
records the transport error, and dereferences `res.Body` — a panic when
`res` is nil, modelled by `ret := none`.  On a 200 status the body is
decoded into the returned `Order`; otherwise the body is decoded into a
shadowing `errorResult`, `apiError` is recorded, then the decode error,
and the (zero) named return is produced. -/
def Instance.NewOrder (i : Instance) (d : DoResult) (price quantity : Int)
    (direction : orderDirection) (ordType : orderType) : OpResult Order :=
  let reqBody := encodeOrderRequest
    { Account := i.account, Venue := i.venue, Symbol := i.symbol
    , Price := price, Quantity := quantity
    , Direction := direction, OrderType := ordType }
  let i1 := i.setErr none
  let url := baseURL ++ "venues/" ++ i.venue ++ "/stocks/" ++ i.symbol
      ++ "/orders"
  let tr : List Event :=
    [ Event.rlock, Event.readCfg "account", Event.readCfg "venue"
    , Event.readCfg "symbol", Event.runlock, Event.readCfg "h"
    , Event.httpDo "POST" url (some reqBody) ]
  let i2 := i1.setErr d.2
  match d.1 with
  | none => { inst := i2, ret := none, trace := tr }
  | some r =>
    if r.statusCode = 200 then
      { inst := i2.setErr (decodeOrder r.body).2
      , ret := some (decodeOrder r.body).1, trace := tr }
    else
      let i3 := i2.setErr
        (some (apiError (decodeErrorResult r.body).1.Error r.status))
      { inst := i3.setErr (decodeErrorResult r.body).2
      , ret := some zeroOrder, trace := tr }

/-- `Instance.CancelOrder` from `order.go`: DELETE of the order URL built
from venue, symbol and the decimal order id, then the shared
response-handling pattern. -/
def Instance.CancelOrder (i : Instance) (d : DoResult) (ID : Int) :
    OpResult Order :=
  let url := baseURL ++ "venues/" ++ i.venue ++ "/stocks/" ++ i.symbol
      ++ "/orders/" ++ itoa ID
  let tr : List Event :=
    [ Event.rlock, Event.readCfg "venue", Event.readCfg "symbol"
    , Event.runlock, Event.readCfg "h"
    , Event.httpDo "DELETE" url none ]
  let i2 := i.setErr d.2
  match d.1 with
  | none => { inst := i2, ret := none, trace := tr }
  | some r =>
    if r.statusCode = 200 then
      { inst := i2.setErr (decodeOrder r.body).2
      , ret := some (decodeOrder r.body).1, trace := tr }
    else
      let i3 := i2.setErr
        (some (apiError (decodeErrorResult r.body).1.Error r.status))
      { inst := i3.setErr (decodeErrorResult r.body).2
      , ret := some zeroOrder, trace := tr }

/-- `Instance.OrderStatus` from `order.go`: GET of the same order URL as
`CancelOrder`, then the shared response-handling pattern. -/
def Instance.OrderStatus (i : Instance) (d : DoResult) (ID : Int) :
    OpResult Order :=
  let url := baseURL ++ "venues/" ++ i.venue ++ "/stocks/" ++ i.symbol
      ++ "/orders/" ++ itoa ID
  let tr : List Event :=
    [ Event.rlock, Event.readCfg "venue", Event.readCfg "symbol"
    , Event.runlock, Event.readCfg "h"
    , Event.httpDo "GET" url none ]
  let i2 := i.setErr d.2
  match d.1 with
  | none => { inst := i2, ret := none, trace := tr }
  | some r =>
    if r.statusCode = 200 then
      { inst := i2.setErr (decodeOrder r.body).2
      , ret := some (decodeOrder r.body).1, trace := tr }
    else
      let i3 := i2.setErr
        (some (apiError (decodeErrorResult r.body).1.Error r.status))
      { inst := i3.setErr (decodeErrorResult r.body).2
      , ret := some zeroOrder, trace := tr }

/-- `Instance.AccountOrderStatus` from `order.go`: GET of the account
orders URL.  On a 200 status the body is decoded into an
`allOrdersStatusResult` and `v.Orders` is returned immediately — the
source returns before any `setErr(jsonErr)` call, so a decode error on
this path is discarded.  On a non-200 status the error body is decoded,
`apiError` then the decode error are recorded, and nil (the empty list)
is returned. -/
def Instance.AccountOrderStatus (i : Instance) (d : DoResult) :
    OpResult (List Order) :=
  let url := baseURL ++ "venues/" ++ i.venue ++ "/accounts/" ++ i.account
      ++ "/orders"
  let tr : List Event :=
    [ Event.rlock, Event.readCfg "venue", Event.readCfg "account"
    , Event.runlock, Event.readCfg "h"
    , Event.httpDo "GET" url none ]
  let i2 := i.setErr d.2
  match d.1 with
  | none => { inst := i2, ret := none, trace := tr }
  | some r =>
    if r.statusCode = 200 then
      { inst := i2, ret := some (decodeAllOrders r.body).1.Orders
      , trace := tr }
    else
      let i3 := i2.setErr
        (some (apiError (decodeErrorResult r.body).1.Error r.status))
      { inst := i3.setErr (decodeErrorResult r.body).2
      , ret := some [], trace := tr }

/-- `Instance.StockOrderStatus` from `order.go`: GET of the per-stock
account orders URL, otherwise identical to `AccountOrderStatus`,
including the early return that discards a decode error on a 200
response. -/
def Instance.StockOrderStatus (i : Instance) (d : DoResult) :
    OpResult (List Order) :=
  let url := baseURL ++ "venues/" ++ i.venue ++ "/accounts/" ++ i.account
      ++ "/stocks/" ++ i.symbol ++ "/orders"
  let tr : List Event :=
    [ Event.rlock, Event.readCfg "venue", Event.readCfg "account"
    , Event.readCfg "symbol", Event.runlock, Event.readCfg "h"
    , Event.httpDo "GET" url none ]
  let i2 := i.setErr d.2
  match d.1 with
  | none => { inst := i2, ret := none, trace := tr }
  | some r =>
    if r.statusCode = 200 then
      { inst := i2, ret := some (decodeAllOrders r.body).1.Orders
      , trace := tr }
    else
      let i3 := i2.setErr
        (some (apiError (decodeErrorResult r.body).1.Error r.status))
      { inst := i3.setErr (decodeErrorResult r.body).2
      , ret := some [], trace := tr }

/-- The configuration fields the spec's locking claim is about. -/
def lockedCfgNames : List String := ["venue", "symbol", "account"]

/-- Read-lock discipline over a trace: `rlock` and `runlock` alternate
correctly, every read of venue, symbol or account happens while the lock
is held, no HTTP request is issued while it is held, and the trace ends
with the lock released. -/
def lockOkAux : List Event → Bool → Bool
  | [], inLock => !inLock
  | Event.rlock :: rest, inLock => !inLock && lockOkAux rest true
  | Event.runlock :: rest, inLock => inLock && lockOkAux rest false
  | Event.readCfg n :: rest, inLock =>
      (if n ∈ lockedCfgNames then inLock else true) && lockOkAux rest inLock
  | Event.httpDo _ _ _ :: rest, inLock => !inLock && lockOkAux rest inLock

/-- A trace obeys the lock discipline when `lockOkAux` accepts it
starting unlocked. -/
def lockOk (tr : List Event) : Bool := lockOkAux tr false

/-- Whether an event is an HTTP request. -/
def isHttpDo : Event → Bool
  | Event.httpDo _ _ _ => true
  | _ => false

/-- The number of HTTP requests a trace issues. -/
def httpCount (tr : List Event) : Nat := (tr.filter isHttpDo).length

/-- The method/URL pairs of the HTTP requests a trace issues, in order. -/
def httpRequests (tr : List Event) : List (String × String) :=
  tr.filterMap fun e =>
    match e with
    | Event.httpDo m u _ => some (m, u)
    | _ => none

/-- The bodies of the HTTP requests a trace issues, in order. -/
def httpBodies (tr : List Event) : List (Option Json) :=
  tr.filterMap fun e =>
    match e with
    | Event.httpDo _ _ b => some b
    | _ => none

/-! ## Helper lemmas about the error accumulator -/

lemma setErr_of_err_some {i : Instance} {g : GoError} (h : i.err = some g)
    (e : Option GoError) : i.setErr e = i := by
  unfold Instance.setErr
  rw [h]

lemma setErr_none_eq (i : Instance) : i.setErr none = i := by
  unfold Instance.setErr
  cases h : i.err <;> rfl

lemma setErr_store {i : Instance} (h : i.err = none) (g : GoError) :
    (i.setErr (some g)).err = some g := by
  unfold Instance.setErr
  rw [h]

lemma setErr_err_eq (i : Instance) (e : Option GoError) :
    (i.setErr e).err = firstErr i.err e := by
  unfold Instance.setErr firstErr
  cases h : i.err <;> cases e <;> simp [h]

lemma setErr_cfg (i : Instance) (e : Option GoError) :
    (i.setErr e).account = i.account ∧ (i.setErr e).venue = i.venue ∧
      (i.setErr e).symbol = i.symbol ∧ (i.setErr e).h = i.h := by
  unfold Instance.setErr
  cases h : i.err <;> cases e <;> simp

/-! ## Per-operation lemmas: stickiness of a pre-existing error -/

lemma NewOrder_err_sticky {i : Instance} {g : GoError} (h : i.err = some g)
    (d : DoResult) (p q : Int) (dir : orderDirection) (ot : orderType) :
    (i.NewOrder d p q dir ot).inst.err = some g := by
  unfold Instance.NewOrder
  rcases d with ⟨res, he⟩
  cases res with
  | none => simp [setErr_of_err_some h, h]
  | some r =>
    by_cases hs : r.statusCode = 200 <;> simp [hs, setErr_of_err_some h, h]

lemma CancelOrder_err_sticky {i : Instance} {g : GoError}
    (h : i.err = some g) (d : DoResult) (ID : Int) :
    (i.CancelOrder d ID).inst.err = some g := by
  unfold Instance.CancelOrder
  rcases d with ⟨res, he⟩
  cases res with
  | none => simp [setErr_of_err_some h, h]
  | some r =>
    by_cases hs : r.statusCode = 200 <;> simp [hs, setErr_of_err_some h, h]

lemma OrderStatus_err_sticky {i : Instance} {g : GoError}
    (h : i.err = some g) (d : DoResult) (ID : Int) :
    (i.OrderStatus d ID).inst.err = some g := by
  unfold Instance.OrderStatus
  rcases d with ⟨res, he⟩
  cases res with
  | none => simp [setErr_of_err_some h, h]
  | some r =>
    by_cases hs : r.statusCode = 200 <;> simp [hs, setErr_of_err_some h, h]

lemma AccountOrderStatus_err_sticky {i : Instance} {g : GoError}
    (h : i.err = some g) (d : DoResult) :
    (i.AccountOrderStatus d).inst.err = some g := by
  unfold Instance.AccountOrderStatus
  rcases d with ⟨res, he⟩
  cases res with
  | none => simp [setErr_of_err_some h, h]
  | some r =>
    by_cases hs : r.statusCode = 200 <;> simp [hs, setErr_of_err_some h, h]

lemma StockOrderStatus_err_sticky {i : Instance} {g : GoError}
    (h : i.err = some g) (d : DoResult) :
    (i.StockOrderStatus d).inst.err = some g := by
  unfold Instance.StockOrderStatus
  rcases d with ⟨res, he⟩
  cases res with
  | none => simp [setErr_of_err_some h, h]
  | some r =>
    by_cases hs : r.statusCode = 200 <;> simp [hs, setErr_of_err_some h, h]

/-! ## Per-operation lemmas: a transport error is stored first -/

lemma NewOrder_httpErr_first {i : Instance} (h : i.err = none)
    (r : Response) (he : GoError) (p q : Int) (dir : orderDirection)
    (ot : orderType) :
    (i.NewOrder (some r, some he) p q dir ot).inst.err = some he := by
  unfold Instance.NewOrder
  by_cases hs : r.statusCode = 200 <;>
    simp [hs, setErr_none_eq, setErr_of_err_some (setErr_store h he),
      setErr_store h he]

lemma CancelOrder_httpErr_first {i : Instance} (h : i.err = none)
    (r : Response) (he : GoError) (ID : Int) :
    (i.CancelOrder (some r, some he) ID).inst.err = some he := by
  unfold Instance.CancelOrder
  by_cases hs : r.statusCode = 200 <;>
    simp [hs, setErr_of_err_some (setErr_store h he), setErr_store h he]

lemma OrderStatus_httpErr_first {i : Instance} (h : i.err = none)
    (r : Response) (he : GoError) (ID : Int) :
    (i.OrderStatus (some r, some he) ID).inst.err = some he := by
  unfold Instance.OrderStatus
  by_cases hs : r.statusCode = 200 <;>
    simp [hs, setErr_of_err_some (setErr_store h he), setErr_store h he]

lemma AccountOrderStatus_httpErr_first {i : Instance} (h : i.err = none)
    (r : Response) (he : GoError) :
    (i.AccountOrderStatus (some r, some he)).inst.err = some he := by
  unfold Instance.AccountOrderStatus
  by_cases hs : r.statusCode = 200 <;>
    simp [hs, setErr_of_err_some (setErr_store h he), setErr_store h he]

lemma StockOrderStatus_httpErr_first {i : Instance} (h : i.err = none)
    (r : Response) (he : GoError) :
    (i.StockOrderStatus (some r, some he)).inst.err = some he := by
  unfold Instance.StockOrderStatus
  by_cases hs : r.statusCode = 200 <;>
    simp [hs, setErr_of_err_some (setErr_store h he), setErr_store h he]

/-! ## Per-operation lemmas: the venue error recorded on non-200 -/

lemma NewOrder_apiErr_recorded {i : Instance} (h : i.err = none)
    {r : Response} (hs : r.statusCode ≠ 200) (p q : Int)
    (dir : orderDirection) (ot : orderType) :
    (i.NewOrder (some r, none) p q dir ot).inst.err
      = some (apiError (decodeErrorResult r.body).1.Error r.status) := by
  unfold Instance.NewOrder
  simp [hs, setErr_none_eq, setErr_of_err_some (setErr_store h _),
    setErr_store h _]

lemma CancelOrder_apiErr_recorded {i : Instance} (h : i.err = none)
    {r : Response} (hs : r.statusCode ≠ 200) (ID : Int) :
    (i.CancelOrder (some r, none) ID).inst.err
      = some (apiError (decodeErrorResult r.body).1.Error r.status) := by
  unfold Instance.CancelOrder
  simp [hs, setErr_none_eq, setErr_of_err_some (setErr_store h _),
    setErr_store h _]

lemma OrderStatus_apiErr_recorded {i : Instance} (h : i.err = none)
    {r : Response} (hs : r.statusCode ≠ 200) (ID : Int) :
    (i.OrderStatus (some r, none) ID).inst.err
      = some (apiError (decodeErrorResult r.body).1.Error r.status) := by
  unfold Instance.OrderStatus
  simp [hs, setErr_none_eq, setErr_of_err_some (setErr_store h _),
    setErr_store h _]

lemma AccountOrderStatus_apiErr_recorded {i : Instance} (h : i.err = none)
    {r : Response} (hs : r.statusCode ≠ 200) :
    (i.AccountOrderStatus (some r, none)).inst.err
      = some (apiError (decodeErrorResult r.body).1.Error r.status) := by
  unfold Instance.AccountOrderStatus
  simp [hs, setErr_none_eq, setErr_of_err_some (setErr_store h _),
    setErr_store h _]

lemma StockOrderStatus_apiErr_recorded {i : Instance} (h : i.err = none)
    {r : Response} (hs : r.statusCode ≠ 200) :
    (i.StockOrderStatus (some r, none)).inst.err
      = some (apiError (decodeErrorResult r.body).1.Error r.status) := by
  unfold Instance.StockOrderStatus
  simp [hs, setErr_none_eq, setErr_of_err_some (setErr_store h _),
    setErr_store h _]

/-! ## Per-operation lemmas: the value returned on a non-200 response -/

lemma NewOrder_ret_non200 (i : Instance) {r : Response}
    (hs : r.statusCode ≠ 200) (he : Option GoError) (p q : Int)
    (dir : orderDirection) (ot : orderType) :
    (i.NewOrder (some r, he) p q dir ot).ret = some zeroOrder := by
  unfold Instance.NewOrder
  simp [hs]

lemma CancelOrder_ret_non200 (i : Instance) {r : Response}
    (hs : r.statusCode ≠ 200) (he : Option GoError) (ID : Int) :
    (i.CancelOrder (some r, he) ID).ret = some zeroOrder := by
  unfold Instance.CancelOrder
  simp [hs]

lemma OrderStatus_ret_non200 (i : Instance) {r : Response}
    (hs : r.statusCode ≠ 200) (he : Option GoError) (ID : Int) :
    (i.OrderStatus (some r, he) ID).ret = some zeroOrder := by
  unfold Instance.OrderStatus
  simp [hs]

lemma AccountOrderStatus_ret_non200 (i : Instance) {r : Response}
    (hs : r.statusCode ≠ 200) (he : Option GoError) :
    (i.AccountOrderStatus (some r, he)).ret = some [] := by
  unfold Instance.AccountOrderStatus
  simp [hs]

lemma StockOrderStatus_ret_non200 (i : Instance) {r : Response}
    (hs : r.statusCode ≠ 200) (he : Option GoError) :
    (i.StockOrderStatus (some r, he)).ret = some [] := by
  unfold Instance.StockOrderStatus
  simp [hs]

/-! ## Per-operation lemmas: a nil response means no value is returned -/

lemma NewOrder_panic_on_nil (i : Instance) (he : Option GoError)
    (p q : Int) (dir : orderDirection) (ot : orderType) :
    (i.NewOrder (none, he) p q dir ot).ret = none := by
  unfold Instance.NewOrder
  simp

lemma CancelOrder_panic_on_nil (i : Instance) (he : Option GoError)
    (ID : Int) : (i.CancelOrder (none, he) ID).ret = none := by
  unfold Instance.CancelOrder
  simp

lemma OrderStatus_panic_on_nil (i : Instance) (he : Option GoError)
    (ID : Int) : (i.OrderStatus (none, he) ID).ret = none := by
  unfold Instance.OrderStatus
  simp

lemma AccountOrderStatus_panic_on_nil (i : Instance)
    (he : Option GoError) : (i.AccountOrderStatus (none, he)).ret = none := by
  unfold Instance.AccountOrderStatus
  simp

lemma StockOrderStatus_panic_on_nil (i : Instance)
    (he : Option GoError) : (i.StockOrderStatus (none, he)).ret = none := by
  unfold Instance.StockOrderStatus
  simp

/-! ## Per-operation lemmas: the trace of each call -/

lemma NewOrder_trace (i : Instance) (d : DoResult) (p q : Int)
    (dir : orderDirection) (ot : orderType) :
    (i.NewOrder d p q dir ot).trace
      = [ Event.rlock, Event.readCfg "account", Event.readCfg "venue"
        , Event.readCfg "symbol", Event.runlock, Event.readCfg "h"
        , Event.httpDo "POST"
            (baseURL ++ "venues/" ++ i.venue ++ "/stocks/" ++ i.symbol
              ++ "/orders")
            (some (encodeOrderRequest
              { Account := i.account, Venue := i.venue, Symbol := i.symbol
              , Price := p, Quantity := q
              , Direction := dir, OrderType := ot })) ] := by
  unfold Instance.NewOrder
  rcases d with ⟨res, he⟩
  cases res with
  | none => simp
  | some r => by_cases hs : r.statusCode = 200 <;> simp [hs]

lemma CancelOrder_trace (i : Instance) (d : DoResult) (ID : Int) :
    (i.CancelOrder d ID).trace
      = [ Event.rlock, Event.readCfg "venue", Event.readCfg "symbol"
        , Event.runlock, Event.readCfg "h"
        , Event.httpDo "DELETE"
            (baseURL ++ "venues/" ++ i.venue ++ "/stocks/" ++ i.symbol
              ++ "/orders/" ++ itoa ID) none ] := by
  unfold Instance.CancelOrder
  rcases d with ⟨res, he⟩
  cases res with
  | none => simp
  | some r => by_cases hs : r.statusCode = 200 <;> simp [hs]

lemma OrderStatus_trace (i : Instance) (d : DoResult) (ID : Int) :
    (i.OrderStatus d ID).trace
      = [ Event.rlock, Event.readCfg "venue", Event.readCfg "symbol"
        , Event.runlock, Event.readCfg "h"
        , Event.httpDo "GET"
            (baseURL ++ "venues/" ++ i.venue ++ "/stocks/" ++ i.symbol
              ++ "/orders/" ++ itoa ID) none ] := by
  unfold Instance.OrderStatus
  rcases d with ⟨res, he⟩
  cases res with
  | none => simp
  | some r => by_cases hs : r.statusCode = 200 <;> simp [hs]

lemma AccountOrderStatus_trace (i : Instance) (d : DoResult) :
    (i.AccountOrderStatus d).trace
      = [ Event.rlock, Event.readCfg "venue", Event.readCfg "account"
        , Event.runlock, Event.readCfg "h"
        , Event.httpDo "GET"
            (baseURL ++ "venues/" ++ i.venue ++ "/accounts/" ++ i.account
              ++ "/orders") none ] := by
  unfold Instance.AccountOrderStatus
  rcases d with ⟨res, he⟩
  cases res with
  | none => simp
  | some r => by_cases hs : r.statusCode = 200 <;> simp [hs]

lemma StockOrderStatus_trace (i : Instance) (d : DoResult) :
    (i.StockOrderStatus d).trace
      = [ Event.rlock, Event.readCfg "venue", Event.readCfg "account"
        , Event.readCfg "symbol", Event.runlock, Event.readCfg "h"
        , Event.httpDo "GET"
            (baseURL ++ "venues/" ++ i.venue ++ "/accounts/" ++ i.account
              ++ "/stocks/" ++ i.symbol ++ "/orders") none ] := by
  unfold Instance.StockOrderStatus
  rcases d with ⟨res, he⟩
  cases res with
  | none => simp
  | some r => by_cases hs : r.statusCode = 200 <;> simp [hs]

/-! ## Per-operation lemmas: decode errors on the 200 path -/

lemma NewOrder_decodeErr_recorded {i : Instance} (h : i.err = none)
    {r : Response} (hs : r.statusCode = 200) (p q : Int)
    (dir : orderDirection) (ot : orderType) :
    (i.NewOrder (some r, none) p q dir ot).inst.err
      = (decodeOrder r.body).2 := by
  unfold Instance.NewOrder
  simp [hs, setErr_none_eq, setErr_err_eq, h, firstErr]

lemma CancelOrder_decodeErr_recorded {i : Instance} (h : i.err = none)
    {r : Response} (hs : r.statusCode = 200) (ID : Int) :
    (i.CancelOrder (some r, none) ID).inst.err = (decodeOrder r.body).2 := by
  unfold Instance.CancelOrder
  simp [hs, setErr_none_eq, setErr_err_eq, h, firstErr]

lemma OrderStatus_decodeErr_recorded {i : Instance} (h : i.err = none)
    {r : Response} (hs : r.statusCode = 200) (ID : Int) :
    (i.OrderStatus (some r, none) ID).inst.err = (decodeOrder r.body).2 := by
  unfold Instance.OrderStatus
  simp [hs, setErr_none_eq, setErr_err_eq, h, firstErr]

lemma AccountOrderStatus_err_unchanged_200 (i : Instance)
    {r : Response} (hs : r.statusCode = 200) :
    (i.AccountOrderStatus (some r, none)).inst = i := by
  unfold Instance.AccountOrderStatus
  simp [hs, setErr_none_eq]

lemma StockOrderStatus_err_unchanged_200 (i : Instance)
    {r : Response} (hs : r.statusCode = 200) :
    (i.StockOrderStatus (some r, none)).inst = i := by
  unfold Instance.StockOrderStatus
  simp [hs, setErr_none_eq]

/-! ## Decoding lemmas about the misspelled `orignialQty` tag -/

lemma fieldIndex_ne_four {k : String}
    (h : eqFold k "orignialQty" = false) : fieldIndex k ≠ some 4 := by
  unfold fieldIndex
  rw [h]
  simp only [cond_false]
  cases h0 : eqFold k "account" <;> simp only [cond_true, cond_false]
  case true => decide
  case false =>
  cases h1 : eqFold k "venue" <;> simp only [cond_true, cond_false]
  case true => decide
  case false =>
  cases h2 : eqFold k "symbol" <;> simp only [cond_true, cond_false]
  case true => decide
  case false =>
  cases h3 : eqFold k "price" <;> simp only [cond_true, cond_false]
  case true => decide
  case false =>
  cases h4 : eqFold k "qty" <;> simp only [cond_true, cond_false]
  case true => decide
  case false =>
  cases h5 : eqFold k "direction" <;> simp only [cond_true, cond_false]
  case true => decide
  case false =>
  cases h6 : eqFold k "orderType" <;> simp only [cond_true, cond_false]
  case true => decide
  case false =>
  cases h7 : eqFold k "id" <;> simp only [cond_true, cond_false]
  case true => decide
  case false =>
  cases h8 : eqFold k "ts" <;> simp only [cond_true, cond_false]
  case true => decide
  case false =>
  cases h9 : eqFold k "fills" <;> simp only [cond_true, cond_false]
  case true => decide
  case false =>
  cases h10 : eqFold k "totalFilled" <;> simp only [cond_true, cond_false]
  case true => decide
  case false =>
  cases h11 : eqFold k "open" <;> simp only [cond_true, cond_false]
  case true => decide
  case false =>
  decide

lemma assign_preserves_origQ (o : Order) (e : Option GoError) (idx : Nat)
    (j : Json) (hne : idx ≠ 4) :
    (assignOrderField o e idx j).1.OriginalQuantity
      = o.OriginalQuantity := by
  rcases idx with _|_|_|_|_|_|_|_|_|_|_|_|_|n
  · rfl
  · rfl
  · rfl
  · rfl
  · exact absurd rfl hne
  · rfl
  · rfl
  · rfl
  · rfl
  · rfl
  · cases j <;> rfl
  · rfl
  · rfl
  · rfl

lemma setOrderField_preserves_origQ (acc : Order × Option GoError)
    (kv : String × Json) (h : eqFold kv.1 "orignialQty" = false) :
    (setOrderField acc kv).1.OriginalQuantity
      = acc.1.OriginalQuantity := by
  unfold setOrderField
  cases hidx : fieldIndex kv.1 with
  | none => rfl
  | some idx =>
    have hne : idx ≠ 4 := by
      intro h4
      exact fieldIndex_ne_four h (h4 ▸ hidx)
    exact assign_preserves_origQ _ _ _ _ hne

lemma foldl_setOrderField_origQ (fs : List (String × Json))
    (acc : Order × Option GoError)
    (hfs : ∀ p ∈ fs, eqFold p.1 "orignialQty" = false) :
    (fs.foldl setOrderField acc).1.OriginalQuantity
      = acc.1.OriginalQuantity := by
  induction fs generalizing acc with
  | nil => rfl
  | cons kv rest ih =>
    have hkv : eqFold kv.1 "orignialQty" = false := hfs kv (by simp)
    have hrest : ∀ p ∈ rest, eqFold p.1 "orignialQty" = false :=
      fun p hp => hfs p (by simp [hp])
    rw [List.foldl_cons, ih _ hrest, setOrderField_preserves_origQ _ _ hkv]

lemma decodeOrder_origQ_zero (fs : List (String × Json))
    (hfs : ∀ p ∈ fs, eqFold p.1 "orignialQty" = false) :
    (decodeOrder (some (Json.obj fs))).1.OriginalQuantity = 0 := by
  unfold decodeOrder
  rw [foldl_setOrderField_origQ fs _ hfs]
  rfl

/-! ## Concrete fixtures used by witnesses and counterexamples -/

/-- A concrete transport-level error. -/
def connErr : GoError := GoError.httpErr "connection refused"

/-- A concrete client whose error accumulator is empty. -/
def okInst : Instance :=
  { account := "EXB123456", venue := "TESTEX", symbol := "FOOBAR"
  , h := [("X-Starfighter-Authorization", "apikey")], err := none }

/-- A concrete client whose error accumulator already holds an error. -/
def badInst : Instance := { okInst with err := some connErr }

/-- A concrete 200 response with a well-formed order body. -/
def okResp : Response :=
  { statusCode := 200, status := "200 OK"
  , body := some (Json.obj
      [ ("ok", Json.bool true), ("symbol", Json.str "FOOBAR")
      , ("id", Json.num 42), ("qty", Json.num 85)
      , ("orignialQty", Json.num 100), ("open", Json.bool true) ]) }

/-- A concrete 404 response with a venue error body. -/
def errResp : Response :=
  { statusCode := 404, status := "404 Not Found"
  , body := some (Json.obj
      [ ("ok", Json.bool false)
      , ("error", Json.str "no such venue") ]) }

/-- A concrete 200 response whose body is not valid JSON. -/
def badBodyResp : Response :=
  { statusCode := 200, status := "200 OK", body := none }

/-! ## Claim theorems -/

/-- C1: the shared error accumulator is sticky with first-error-wins
semantics.  First part: if the accumulator holds an error before any of
the five endpoint operations, it holds that same error afterwards,
whatever the call's outcome.  Second part: when several errors arise in
one call (here a transport error followed by whatever the response
handling produces), only the first error encountered is stored. -/
theorem err_accumulator_sticky_first_wins (i : Instance) (g : GoError)
    (d : DoResult) (p q ID : Int) (dir : orderDirection) (ot : orderType)
    (r : Response) (he : GoError) :
    (i.err = some g →
      ((i.NewOrder d p q dir ot).inst.err = some g ∧
       (i.CancelOrder d ID).inst.err = some g ∧
       (i.OrderStatus d ID).inst.err = some g ∧
       (i.AccountOrderStatus d).inst.err = some g ∧
       (i.StockOrderStatus d).inst.err = some g)) ∧
    (i.err = none →
      ((i.NewOrder (some r, some he) p q dir ot).inst.err = some he ∧
       (i.CancelOrder (some r, some he) ID).inst.err = some he ∧
       (i.OrderStatus (some r, some he) ID).inst.err = some he ∧
       (i.AccountOrderStatus (some r, some he)).inst.err = some he ∧
       (i.StockOrderStatus (some r, some he)).inst.err = some he)) := by
  constructor
  · intro h
    exact ⟨NewOrder_err_sticky h d p q dir ot,
      CancelOrder_err_sticky h d ID, OrderStatus_err_sticky h d ID,
      AccountOrderStatus_err_sticky h d, StockOrderStatus_err_sticky h d⟩
  · intro h
    exact ⟨NewOrder_httpErr_first h r he p q dir ot,
      CancelOrder_httpErr_first h r he ID,
      OrderStatus_httpErr_first h r he ID,
      AccountOrderStatus_httpErr_first h r he,
      StockOrderStatus_httpErr_first h r he⟩

/-- Witness for C1 at concrete inputs: a pre-existing connection error
survives a successful `NewOrder` call, and a transport error is what a
call with a non-200 response stores (not the venue error produced
later in the same call). -/
theorem err_accumulator_sticky_first_wins_witness :
    (badInst.NewOrder (some okResp, none) 1 2 Buy Limit).inst.err
        = some connErr ∧
    (okInst.OrderStatus (some errResp, some connErr) 7).inst.err
        = some connErr := by
  constructor
  · exact ((err_accumulator_sticky_first_wins badInst connErr
      (some okResp, none) 1 2 7 Buy Limit okResp connErr).1 rfl).1
  · exact ((err_accumulator_sticky_first_wins okInst connErr
      (some errResp, some connErr) 1 2 7 Buy Limit errResp connErr).2
        rfl).2.2.1

/-- C2: on a non-200 response, every endpoint operation records the
venue's message — built by `apiError` from the decoded error body's
`Error` field and the response status — into the shared error field,
provided no earlier error occupies it (accumulator empty, no transport
error in the same call). -/
theorem non200_records_venue_error (i : Instance) (r : Response)
    (p q ID : Int) (dir : orderDirection) (ot : orderType)
    (h : i.err = none) (hs : r.statusCode ≠ 200) :
    (i.NewOrder (some r, none) p q dir ot).inst.err
        = some (apiError (decodeErrorResult r.body).1.Error r.status) ∧
    (i.CancelOrder (some r, none) ID).inst.err
        = some (apiError (decodeErrorResult r.body).1.Error r.status) ∧
    (i.OrderStatus (some r, none) ID).inst.err
        = some (apiError (decodeErrorResult r.body).1.Error r.status) ∧
    (i.AccountOrderStatus (some r, none)).inst.err
        = some (apiError (decodeErrorResult r.body).1.Error r.status) ∧
    (i.StockOrderStatus (some r, none)).inst.err
        = some (apiError (decodeErrorResult r.body).1.Error r.status) :=
  ⟨NewOrder_apiErr_recorded h hs p q dir ot,
   CancelOrder_apiErr_recorded h hs ID,
   OrderStatus_apiErr_recorded h hs ID,
   AccountOrderStatus_apiErr_recorded h hs,
   StockOrderStatus_apiErr_recorded h hs⟩

/-- Witness for C2 at a concrete 404 response: the recorded error holds
the venue's message "no such venue" together with the status line. -/
theorem non200_records_venue_error_witness :
    (okInst.CancelOrder (some errResp, none) 7).inst.err
      = some (apiError "no such venue" "404 Not Found") := by
  have h := (non200_records_venue_error okInst errResp 1 2 7 Buy Limit
    rfl (by decide)).2.1
  rw [h]
  rfl

/-- C3, counterexample: the claim says a decode failure on a 200
response of `AccountOrderStatus` or `StockOrderStatus` is recorded.  At
this concrete input the body of the 200 response is unreadable, so its
decode produces an error, yet the accumulator — empty before the call —
is still empty afterwards: the source returns `v.Orders` before its
`setErr(jsonErr)` line is reached. -/
theorem decode_error_dropped_on_200_cex :
    (okInst.AccountOrderStatus (some badBodyResp, none)).inst.err = none ∧
    (okInst.StockOrderStatus (some badBodyResp, none)).inst.err = none ∧
    (decodeAllOrders badBodyResp.body).2 = some invalidCharErr :=
  ⟨rfl, rfl, rfl⟩

/-- C3, amended: a JSON decode error reaches the sticky error field
subject to first-error-wins in `NewOrder`, `CancelOrder` and
`OrderStatus` — on their 200 path it is recorded whenever no earlier
error exists, and on the non-200 path the venue error is recorded first
and therefore shadows the error-body decode error — but a decode failure
on a 200 response of `AccountOrderStatus` or `StockOrderStatus` is
silently discarded: those functions return before any `setErr` call, and
the whole client state is left untouched. -/
theorem decode_errors_recorded_amended (i : Instance) (r : Response)
    (p q ID : Int) (dir : orderDirection) (ot : orderType)
    (h : i.err = none) :
    (r.statusCode = 200 →
      ((i.NewOrder (some r, none) p q dir ot).inst.err
          = (decodeOrder r.body).2 ∧
       (i.CancelOrder (some r, none) ID).inst.err
          = (decodeOrder r.body).2 ∧
       (i.OrderStatus (some r, none) ID).inst.err
          = (decodeOrder r.body).2 ∧
       (i.AccountOrderStatus (some r, none)).inst = i ∧
       (i.StockOrderStatus (some r, none)).inst = i)) ∧
    (r.statusCode ≠ 200 →
      (i.NewOrder (some r, none) p q dir ot).inst.err
        = some (apiError (decodeErrorResult r.body).1.Error r.status)) := by
  constructor
  · intro hs
    exact ⟨NewOrder_decodeErr_recorded h hs p q dir ot,
      CancelOrder_decodeErr_recorded h hs ID,
      OrderStatus_decodeErr_recorded h hs ID,
      AccountOrderStatus_err_unchanged_200 i hs,
      StockOrderStatus_err_unchanged_200 i hs⟩
  · intro hs
    exact NewOrder_apiErr_recorded h hs p q dir ot

/-- Witness for the amended C3 at a concrete input: a 200 response with
an unreadable body makes `NewOrder` record the decode error. -/
theorem decode_errors_recorded_amended_witness :
    (okInst.NewOrder (some badBodyResp, none) 1 2 Buy Limit).inst.err
      = some invalidCharErr := by
  have h := ((decode_errors_recorded_amended okInst badBodyResp 1 2 7
    Buy Limit rfl).1 rfl).1
  rw [h]
  rfl

/-- C4: on a non-200 response every endpoint operation returns the zero
value of its result type, whatever the error body holds and whether or
not a transport error accompanied the response: the three single-order
operations return the zero `Order` struct (the decoded error body goes
into a shadowing local), and the two slice-returning operations return
nil, modelled as the empty list. -/
theorem non200_returns_zero_value (i : Instance) (r : Response)
    (he : Option GoError) (p q ID : Int) (dir : orderDirection)
    (ot : orderType) (hs : r.statusCode ≠ 200) :
    (i.NewOrder (some r, he) p q dir ot).ret = some zeroOrder ∧
    (i.CancelOrder (some r, he) ID).ret = some zeroOrder ∧
    (i.OrderStatus (some r, he) ID).ret = some zeroOrder ∧
    (i.AccountOrderStatus (some r, he)).ret = some [] ∧
    (i.StockOrderStatus (some r, he)).ret = some [] :=
  ⟨NewOrder_ret_non200 i hs he p q dir ot,
   CancelOrder_ret_non200 i hs he ID,
   OrderStatus_ret_non200 i hs he ID,
   AccountOrderStatus_ret_non200 i hs he,
   StockOrderStatus_ret_non200 i hs he⟩

/-- Witness for C4 at a concrete 404 response carrying a venue error
body: `NewOrder` still returns the zero `Order` and
`AccountOrderStatus` the empty (nil) slice. -/
theorem non200_returns_zero_value_witness :
    (okInst.NewOrder (some errResp, none) 1 2 Buy Limit).ret
        = some zeroOrder ∧
    (okInst.AccountOrderStatus (some errResp, none)).ret = some [] := by
  have h := non200_returns_zero_value okInst errResp none 1 2 7 Buy Limit
    (by decide)
  exact ⟨h.1, h.2.2.2.1⟩

/-- C5: each operation issues exactly the method and URL the claim
states, for every client configuration and outcome: POST to the stock's
orders path for `NewOrder`; DELETE and GET to the order path with the id
rendered in decimal for `CancelOrder` and `OrderStatus`; GET to the
account orders path for `AccountOrderStatus`; GET to the per-stock
account orders path for `StockOrderStatus`. -/
theorem request_urls_and_methods (i : Instance) (d : DoResult)
    (p q ID : Int) (dir : orderDirection) (ot : orderType) :
    httpRequests (i.NewOrder d p q dir ot).trace
      = [("POST", baseURL ++ "venues/" ++ i.venue ++ "/stocks/"
          ++ i.symbol ++ "/orders")] ∧
    httpRequests (i.CancelOrder d ID).trace
      = [("DELETE", baseURL ++ "venues/" ++ i.venue ++ "/stocks/"
          ++ i.symbol ++ "/orders/" ++ itoa ID)] ∧
    httpRequests (i.OrderStatus d ID).trace
      = [("GET", baseURL ++ "venues/" ++ i.venue ++ "/stocks/"
          ++ i.symbol ++ "/orders/" ++ itoa ID)] ∧
    httpRequests (i.AccountOrderStatus d).trace
      = [("GET", baseURL ++ "venues/" ++ i.venue ++ "/accounts/"
          ++ i.account ++ "/orders")] ∧
    httpRequests (i.StockOrderStatus d).trace
      = [("GET", baseURL ++ "venues/" ++ i.venue ++ "/accounts/"
          ++ i.account ++ "/stocks/" ++ i.symbol ++ "/orders")] := by
  refine ⟨?_, ?_, ?_, ?_, ?_⟩
  · rw [NewOrder_trace]
    rfl
  · rw [CancelOrder_trace]
    rfl
  · rw [OrderStatus_trace]
    rfl
  · rw [AccountOrderStatus_trace]
    rfl
  · rw [StockOrderStatus_trace]
    rfl

/-- C6: when the HTTP round-trip itself fails in the usual Go way — `Do`
returns a nil response, with or without an accompanying error value —
every endpoint operation dereferences the nil response's body and
panics, so no value at all is returned (`ret = none` in this
embedding). -/
theorem nil_response_panics (i : Instance) (e : Option GoError)
    (p q ID : Int) (dir : orderDirection) (ot : orderType) :
    (i.NewOrder (none, e) p q dir ot).ret = none ∧
    (i.CancelOrder (none, e) ID).ret = none ∧
    (i.OrderStatus (none, e) ID).ret = none ∧
    (i.AccountOrderStatus (none, e)).ret = none ∧
    (i.StockOrderStatus (none, e)).ret = none :=
  ⟨NewOrder_panic_on_nil i e p q dir ot,
   CancelOrder_panic_on_nil i e ID,
   OrderStatus_panic_on_nil i e ID,
   AccountOrderStatus_panic_on_nil i e,
   StockOrderStatus_panic_on_nil i e⟩

/-- C7, counterexample: the claim says only a body literally keyed
`orignialQty` can populate `Order.OriginalQuantity`, but Go's
`encoding/json` also accepts a case-insensitive tag match: a body keyed
`ORIGNIALQTY` — a different string from `orignialQty` — populates the
field. -/
theorem origQty_case_fold_cex :
    (decodeOrder (some (Json.obj [("ORIGNIALQTY", Json.num 7)]))).1.OriginalQuantity = 7 ∧
    ("ORIGNIALQTY" : String) ≠ "orignialQty" :=
  ⟨rfl, by decide⟩

/-- C7, amended: because the tag is the misspelled `orignialQty`,
decoding a body whose keys never match `orignialQty` up to ASCII case —
in particular a body using the correctly spelled `originalQty`, which is
not a case variant of the tag — leaves `OriginalQuantity` at 0; only a
key equal to `orignialQty` up to ASCII case (not necessarily literally)
can populate it, and the literal key does. -/
theorem origQty_misspelling_amended :
    (∀ fs : List (String × Json),
      (∀ p ∈ fs, eqFold p.1 "orignialQty" = false) →
        (decodeOrder (some (Json.obj fs))).1.OriginalQuantity = 0) ∧
    eqFold "originalQty" "orignialQty" = false ∧
    (∀ fs : List (String × Json),
      (decodeOrder (some (Json.obj fs))).1.OriginalQuantity ≠ 0 →
        ∃ p ∈ fs, eqFold p.1 "orignialQty" = true) ∧
    (decodeOrder (some (Json.obj [("orignialQty", Json.num 5)]))).1.OriginalQuantity = 5 := by
  refine ⟨fun fs hfs => decodeOrder_origQ_zero fs hfs, by decide, ?_, rfl⟩
  intro fs hne
  by_contra hc
  push_neg at hc
  have hall : ∀ p ∈ fs, eqFold p.1 "orignialQty" = false := by
    intro p hp
    cases hb : eqFold p.1 "orignialQty" with
    | false => rfl
    | true => exact absurd hb (hc p hp)
  exact hne (decodeOrder_origQ_zero fs hall)

/-- Witness for the amended C7 at a concrete input: a body keyed with
the correct spelling `originalQty` leaves the field at 0. -/
theorem origQty_misspelling_amended_witness :
    (decodeOrder (some (Json.obj [("originalQty", Json.num 9)]))).1.OriginalQuantity = 0 :=
  origQty_misspelling_amended.1 [("originalQty", Json.num 9)] (by decide)

/-- C8: the exported order constants serialize in the JSON order-request
body exactly as the spec's enumeration: `Limit` as "limit", `Market` as
"market", `FillOrKill` as "fill-or-kill", `ImmediateOrCancel` as
"immediate-or-cancel", `Buy` as "buy" and `Sell` as "sell", under the
`direction` and `orderType` keys of the marshalled `orderRequest`. -/
theorem order_constants_serialization (a v s : String) (p q : Int) :
    encodeOrderRequest ⟨a, v, s, p, q, Buy, Limit⟩
      = Json.obj
        [ ("account", Json.str a), ("venue", Json.str v)
        , ("symbol", Json.str s), ("price", Json.num p)
        , ("qty", Json.num q), ("direction", Json.str "buy")
        , ("orderType", Json.str "limit") ] ∧
    encodeOrderRequest ⟨a, v, s, p, q, Sell, Market⟩
      = Json.obj
        [ ("account", Json.str a), ("venue", Json.str v)
        , ("symbol", Json.str s), ("price", Json.num p)
        , ("qty", Json.num q), ("direction", Json.str "sell")
        , ("orderType", Json.str "market") ] ∧
    encodeOrderRequest ⟨a, v, s, p, q, Buy, FillOrKill⟩
      = Json.obj
        [ ("account", Json.str a), ("venue", Json.str v)
        , ("symbol", Json.str s), ("price", Json.num p)
        , ("qty", Json.num q), ("direction", Json.str "buy")
        , ("orderType", Json.str "fill-or-kill") ] ∧
    encodeOrderRequest ⟨a, v, s, p, q, Sell, ImmediateOrCancel⟩
      = Json.obj
        [ ("account", Json.str a), ("venue", Json.str v)
        , ("symbol", Json.str s), ("price", Json.num p)
        , ("qty", Json.num q), ("direction", Json.str "sell")
        , ("orderType", Json.str "immediate-or-cancel") ] :=
  ⟨rfl, rfl, rfl, rfl⟩

/-- C9: no endpoint operation retries — every call's trace contains
exactly one HTTP request, whatever the outcome — and a transport-level
failure and a venue-reported error are recorded into the same single
`err` field, with nothing distinguishing them beyond the error value
itself. -/
theorem single_request_same_error_field (i : Instance) (d : DoResult)
    (p q ID : Int) (dir : orderDirection) (ot : orderType)
    (r : Response) (he : GoError) :
    (httpCount (i.NewOrder d p q dir ot).trace = 1 ∧
     httpCount (i.CancelOrder d ID).trace = 1 ∧
     httpCount (i.OrderStatus d ID).trace = 1 ∧
     httpCount (i.AccountOrderStatus d).trace = 1 ∧
     httpCount (i.StockOrderStatus d).trace = 1) ∧
    (i.err = none →
      ((i.NewOrder (some r, some he) p q dir ot).inst.err = some he ∧
       (i.CancelOrder (some r, some he) ID).inst.err = some he ∧
       (i.OrderStatus (some r, some he) ID).inst.err = some he ∧
       (i.AccountOrderStatus (some r, some he)).inst.err = some he ∧
       (i.StockOrderStatus (some r, some he)).inst.err = some he) ∧
      (r.statusCode ≠ 200 →
        ((i.NewOrder (some r, none) p q dir ot).inst.err
            = some (apiError (decodeErrorResult r.body).1.Error
                r.status) ∧
         (i.CancelOrder (some r, none) ID).inst.err
            = some (apiError (decodeErrorResult r.body).1.Error
                r.status) ∧
         (i.OrderStatus (some r, none) ID).inst.err
            = some (apiError (decodeErrorResult r.body).1.Error
                r.status) ∧
         (i.AccountOrderStatus (some r, none)).inst.err
            = some (apiError (decodeErrorResult r.body).1.Error
                r.status) ∧
         (i.StockOrderStatus (some r, none)).inst.err
            = some (apiError (decodeErrorResult r.body).1.Error
                r.status)))) := by
  constructor
  · refine ⟨?_, ?_, ?_, ?_, ?_⟩
    · rw [NewOrder_trace]
      rfl
    · rw [CancelOrder_trace]
      rfl
    · rw [OrderStatus_trace]
      rfl
    · rw [AccountOrderStatus_trace]
      rfl
    · rw [StockOrderStatus_trace]
      rfl
  · intro h
    refine ⟨⟨NewOrder_httpErr_first h r he p q dir ot,
      CancelOrder_httpErr_first h r he ID,
      OrderStatus_httpErr_first h r he ID,
      AccountOrderStatus_httpErr_first h r he,
      StockOrderStatus_httpErr_first h r he⟩, fun hs =>
        ⟨NewOrder_apiErr_recorded h hs p q dir ot,
         CancelOrder_apiErr_recorded h hs ID,
         OrderStatus_apiErr_recorded h hs ID,
         AccountOrderStatus_apiErr_recorded h hs,
         StockOrderStatus_apiErr_recorded h hs⟩⟩

/-- Witness for C9 at concrete inputs: for `StockOrderStatus`, a
transport error and a venue error land in the same `err` field. -/
theorem single_request_same_error_field_witness :
    (okInst.StockOrderStatus (some okResp, some connErr)).inst.err
        = some connErr ∧
    (okInst.StockOrderStatus (some errResp, none)).inst.err
        = some (apiError "no such venue" "404 Not Found") := by
  constructor
  · exact ((single_request_same_error_field okInst
      (some okResp, some connErr) 1 2 7 Buy Limit okResp connErr).2
        rfl).1.2.2.2.2
  · have h := (((single_request_same_error_field okInst
      (some errResp, none) 1 2 7 Buy Limit errResp connErr).2 rfl).2
        (by decide)).2.2.2.2
    rw [h]
    rfl

/-- C10: every endpoint operation takes the read lock exactly around its
reads of the client configuration fields venue, symbol and account, and
releases it before the HTTP request is issued: `lockOk` checks that the
lock is taken and released in order, that every read of those fields
happens while it is held, and that the `Do` call happens while it is not
held. -/
theorem read_lock_discipline (i : Instance) (d : DoResult)
    (p q ID : Int) (dir : orderDirection) (ot : orderType) :
    lockOk (i.NewOrder d p q dir ot).trace = true ∧
    lockOk (i.CancelOrder d ID).trace = true ∧
    lockOk (i.OrderStatus d ID).trace = true ∧
    lockOk (i.AccountOrderStatus d).trace = true ∧
    lockOk (i.StockOrderStatus d).trace = true := by
  refine ⟨?_, ?_, ?_, ?_, ?_⟩
  · rw [NewOrder_trace]
    simp [lockOk, lockOkAux, lockedCfgNames]
  · rw [CancelOrder_trace]
    simp [lockOk, lockOkAux, lockedCfgNames]
  · rw [OrderStatus_trace]
    simp [lockOk, lockOkAux, lockedCfgNames]
  · rw [AccountOrderStatus_trace]
    simp [lockOk, lockOkAux, lockedCfgNames]
  · rw [StockOrderStatus_trace]
    simp [lockOk, lockOkAux, lockedCfgNames]

end Stockfighter
